import Mathlib

set_option linter.unusedVariables false

/-!
Verification of the SMART CVD risk-reduction calculator (cvd_risk_app.py).

The numeric semantics of the Python program (double-precision floats) is
embedded over the real numbers: math.log / math.exp become Real.log /
Real.exp, the float power a ** b on a positive base becomes Real.rpow,
and round(v, 1) becomes round1 below (round-to-nearest on tenths).
Streamlit widgets are modelled by their returned values: a disabled
checkbox always yields false, and a checkbox that is never rendered on a
branch leaves its Python variable unassigned, which we model with Option.
-/

namespace CvdRiskApp

/-- Python round(v, 1): round to one decimal place (round-to-nearest;
ties are immaterial to every property proved below). -/
noncomputable def round1 (x : ℝ) : ℝ := ((round (x * 10) : ℤ) : ℝ) / 10

/-- The ldl_therapies dictionary (percent LDL reduction per therapy). -/
def ldl_therapies (name : String) : ℝ :=
  if name = "Atorvastatin 80 mg" then 50
  else if name = "Rosuvastatin 20 mg" then 55
  else if name = "Ezetimibe" then 20
  else if name = "Bempedoic acid" then 18
  else if name = "PCSK9 inhibitor" then 60
  else if name = "Inclisiran (siRNA)" then 40
  else 0

/-- The linear predictor lp computed inside estimate_smart_risk
(lines 44-50 of cvd_risk_app.py), with the source's encodings
sex_v / smoke_v / dm_v inlined and the source's -0.2 * (egfr / 10) term. -/
noncomputable def smartLp (age : ℝ) (sex : String) (sbp tc hdl : ℝ) (smoke dm : Bool)
    (egfr crp vasc : ℝ) : ℝ :=
  0.064 * age + 0.34 * (if sex = "Male" then (1 : ℝ) else 0) + 0.02 * sbp + 0.25 * tc
    - 0.25 * hdl + 0.44 * (if smoke then (1 : ℝ) else 0) + 0.51 * (if dm then (1 : ℝ) else 0)
    - 0.2 * (egfr / 10) + 0.25 * Real.log (crp + 1) + 0.4 * vasc

/-- estimate_smart_risk: r10 = 1 - 0.900 ** exp(lp - 5.8), returned as
round(r10 * 100, 1). -/
noncomputable def estimate_smart_risk (age : ℝ) (sex : String) (sbp tc hdl : ℝ)
    (smoke dm : Bool) (egfr crp vasc : ℝ) : ℝ :=
  round1 ((1 - (0.900 : ℝ) ^ Real.exp (smartLp age sex sbp tc hdl smoke dm egfr crp vasc - 5.8))
    * 100)

/-- The one failure kind of the core (spec section 7): math.log raises on a
non-positive argument, reported to callers as InvalidInput. -/
inductive RiskError where
  | invalidInput

/-- estimate_smart_risk with math.log's domain check made explicit: the call
math.log(crp + 1) on line 47 raises exactly when crp + 1 <= 0, which the spec
names InvalidInput; otherwise the computation returns normally. -/
noncomputable def estimate_smart_risk_checked (age : ℝ) (sex : String) (sbp tc hdl : ℝ)
    (smoke dm : Bool) (egfr crp vasc : ℝ) : Except RiskError ℝ :=
  if crp + 1 ≤ 0 then Except.error RiskError.invalidInput
  else Except.ok (estimate_smart_risk age sex sbp tc hdl smoke dm egfr crp vasc)

/-- convert_5yr: p = r10 / 100; round((1 - (1 - p) ** 0.5) * 100, 1). -/
noncomputable def convert_5yr (r10 : ℝ) : ℝ :=
  round1 ((1 - (1 - r10 / 100) ^ (0.5 : ℝ)) * 100)

/-- adj_ldl (tab2, lines 95-100): start from baseline LDL, apply the statin's
multiplicative reduction if one is selected, then ezetimibe's, then floor
at 1.0 mmol/L. -/
noncomputable def adj_ldl (baseline_ldl : ℝ) (statin : String) (ez : Bool) : ℝ :=
  let a := baseline_ldl
  let a := if statin ≠ "None" then a * (1 - ldl_therapies statin / 100) else a
  let a := if ez then a * (1 - ldl_therapies "Ezetimibe" / 100) else a
  max a 1.0

/-- The tab2 checkbox selections for the advised interventions; the results
block receives them all, whether or not it uses them. -/
structure InterventionSelection where
  smoke_iv : Bool
  sem_iv : Bool
  diet_iv : Bool
  act_iv : Bool
  alc_iv : Bool
  str_iv : Bool
  asa_iv : Bool
  sgl_iv : Bool
  ico_iv : Bool

/-- baseline_c (line 146): the baseline 10-year risk capped at 85. -/
noncomputable def baseline_c (baseline : ℝ) : ℝ := min baseline 85

/-- final (line 147): the code's placeholder subtracts a flat 10 from the
capped baseline; the selected interventions are in scope but unread. -/
noncomputable def final (baseline : ℝ) (_ivs : InterventionSelection) : ℝ :=
  baseline_c baseline - 10

/-- arr (line 148): round(baseline_c - final, 1). -/
noncomputable def arr (baseline : ℝ) (ivs : InterventionSelection) : ℝ :=
  round1 (baseline_c baseline - final baseline ivs)

/-- rrr (line 149): round(min(arr / baseline_c * 100, 75), 1). -/
noncomputable def rrr (baseline : ℝ) (ivs : InterventionSelection) : ℝ :=
  round1 (min (arr baseline ivs / baseline_c baseline * 100) 75)

/-- The pcsk9 checkbox (lines 104-105): rendered, hence assigned, only when
the adjusted LDL exceeds 1.8 mmol/L; on the other branch the Python name
stays unbound, modelled as none. -/
noncomputable def pcsk9_sel (adj : ℝ) (want : Bool) : Option Bool :=
  if adj > 1.8 then some want else none

/-- The incl checkbox (line 106), same gating as pcsk9_sel. -/
noncomputable def incl_sel (adj : ℝ) (want : Bool) : Option Bool :=
  if adj > 1.8 then some want else none

/-- smoke_iv (line 114): the checkbox is disabled unless the patient smokes,
and a disabled checkbox keeps its default value false. -/
def smoke_iv_sel (smoking want : Bool) : Bool := if smoking then want else false

/-- sem_iv (line 116): disabled when BMI < 30. -/
noncomputable def sem_iv_sel (bmi : ℝ) (want : Bool) : Bool := if bmi < 30 then false else want

/-- ico_iv (lines 127-131): initialised to False and only replaced by a
checkbox when TG > 1.7. -/
noncomputable def ico_iv_sel (tg : ℝ) (want : Bool) : Bool := if tg > 1.7 then want else false

/-- The Add-Tx cell of the results-details row (line 160): it reads the
Python names pcsk9 and incl, so it produces a string only when both were
assigned; otherwise the row raises NameError, modelled as none. -/
def add_tx_row : Option Bool → Option Bool → Option String
  | some p, some i => some ((if p then "; PCSK9i" else "") ++ (if i then "; Inclisiran" else ""))
  | _, _ => none

/-! Helper lemmas about round1. -/

theorem round1_mono {x y : ℝ} (h : x ≤ y) : round1 x ≤ round1 y := by
  have hr : round (x * 10) ≤ round (y * 10) := by
    rw [round_eq, round_eq]
    exact Int.floor_mono (by linarith)
  have hc : ((round (x * 10) : ℤ) : ℝ) ≤ ((round (y * 10) : ℤ) : ℝ) := Int.cast_le.mpr hr
  unfold round1
  linarith

theorem round1_intCast (n : ℤ) : round1 (n : ℝ) = n := by
  unfold round1
  have h : ((n : ℝ) * 10) = ((n * 10 : ℤ) : ℝ) := by push_cast; ring
  rw [h, round_intCast]
  push_cast
  ring

theorem round1_nonneg {x : ℝ} (h : 0 ≤ x) : 0 ≤ round1 x := by
  have h0 : round1 (((0 : ℤ) : ℝ)) = ((0 : ℤ) : ℝ) := round1_intCast 0
  have := round1_mono (x := ((0 : ℤ) : ℝ)) (y := x) (by exact_mod_cast h)
  rw [h0] at this
  exact_mod_cast this

theorem round1_le_int {x : ℝ} (n : ℤ) (h : x ≤ (n : ℝ)) : round1 x ≤ (n : ℝ) := by
  have := round1_mono h
  rwa [round1_intCast] at this

theorem exp_lt_inv_one_sub {x : ℝ} (h0 : 0 < x) (h1 : x < 1) :
    Real.exp x < (1 - x)⁻¹ := by
  have hne : (-x) ≠ 0 := neg_ne_zero.mpr (ne_of_gt h0)
  have h2 : 1 - x < Real.exp (-x) := by
    have := Real.add_one_lt_exp hne
    linarith
  rw [Real.exp_neg] at h2
  have h3 : 0 < 1 - x := by linarith
  have h4 := inv_strictAnti₀ h3 h2
  rwa [inv_inv] at h4

theorem log_three_lt : Real.log 3 < 1.116 := by
  rw [Real.log_lt_iff_lt_exp (by norm_num)]
  have h1 : Real.exp 1.116 = Real.exp 1 * Real.exp 0.116 := by
    rw [← Real.exp_add]
    norm_num
  have h2 : (2.7182818283 : ℝ) < Real.exp 1 := Real.exp_one_gt_d9
  have h3 : (1.116 : ℝ) < Real.exp 0.116 := by
    have := Real.add_one_lt_exp (x := 0.116) (by norm_num)
    linarith
  nlinarith [Real.exp_pos 1, Real.exp_pos 0.116]

theorem log_three_gt : 1.08 < Real.log 3 := by
  rw [Real.lt_log_iff_exp_lt (by norm_num)]
  have h1 : Real.exp 1.08 = Real.exp 1 * Real.exp 0.08 := by
    rw [← Real.exp_add]
    norm_num
  have h2 : Real.exp 1 < 2.7182818286 := Real.exp_one_lt_d9
  have h3 : Real.exp 0.08 < (1 - 0.08)⁻¹ := exp_lt_inv_one_sub (by norm_num) (by norm_num)
  have h4 : ((1 : ℝ) - 0.08)⁻¹ < 1.0870 := by norm_num
  nlinarith [Real.exp_pos 1, Real.exp_pos 0.08]

/-! Tight Taylor-series bounds used to evaluate the example profile's risk. -/

theorem exp_09855_ub : Real.exp 0.09855 ≤ 1.10357 := by
  have h := Real.exp_bound' (x := (0.09855 : ℝ)) (by norm_num) (by norm_num) (n := 5)
    (by norm_num)
  refine h.trans ?_
  rw [Finset.sum_range_succ, Finset.sum_range_succ, Finset.sum_range_succ,
    Finset.sum_range_succ, Finset.sum_range_succ, Finset.sum_range_zero]
  norm_num [Nat.factorial]

theorem exp_09868_lb : (1.1037125 : ℝ) ≤ Real.exp 0.09868 := by
  have h := Real.sum_le_exp_of_nonneg (x := (0.09868 : ℝ)) (by norm_num) 6
  refine le_trans ?_ h
  rw [Finset.sum_range_succ, Finset.sum_range_succ, Finset.sum_range_succ,
    Finset.sum_range_succ, Finset.sum_range_succ, Finset.sum_range_succ,
    Finset.sum_range_zero]
  norm_num [Nat.factorial]

theorem log_three_gt_d5 : 1.09855 < Real.log 3 := by
  rw [Real.lt_log_iff_exp_lt (by norm_num)]
  have hsplit : Real.exp 1.09855 = Real.exp 1 * Real.exp 0.09855 := by
    rw [← Real.exp_add]
    norm_num
  have h1 : Real.exp 1 < 2.7182818286 := Real.exp_one_lt_d9
  have h2 : Real.exp 0.09855 ≤ 1.10357 := exp_09855_ub
  rw [hsplit]
  calc Real.exp 1 * Real.exp 0.09855 ≤ 2.7182818286 * 1.10357 :=
        mul_le_mul h1.le h2 (Real.exp_pos _).le (by norm_num)
    _ < 3 := by norm_num

theorem log_three_lt_d5 : Real.log 3 < 1.09868 := by
  rw [Real.log_lt_iff_lt_exp (by norm_num)]
  have hsplit : Real.exp 1.09868 = Real.exp 1 * Real.exp 0.09868 := by
    rw [← Real.exp_add]
    norm_num
  have h1 : (2.7182818283 : ℝ) < Real.exp 1 := Real.exp_one_gt_d9
  have h2 : (1.1037125 : ℝ) ≤ Real.exp 0.09868 := exp_09868_lb
  rw [hsplit]
  calc (3 : ℝ) < 2.7182818283 * 1.1037125 := by norm_num
    _ ≤ Real.exp 1 * Real.exp 0.09868 :=
        mul_le_mul h1.le h2 (by norm_num) (Real.exp_pos _).le

theorem exp_10536_ub : Real.exp 0.10536 ≤ 1.1111108 := by
  have h := Real.exp_bound' (x := (0.10536 : ℝ)) (by norm_num) (by norm_num) (n := 5)
    (by norm_num)
  refine h.trans ?_
  rw [Finset.sum_range_succ, Finset.sum_range_succ, Finset.sum_range_succ,
    Finset.sum_range_succ, Finset.sum_range_succ, Finset.sum_range_zero]
  norm_num [Nat.factorial]

theorem exp_105361_lb : (1.1111114 : ℝ) ≤ Real.exp 0.105361 := by
  have h := Real.sum_le_exp_of_nonneg (x := (0.105361 : ℝ)) (by norm_num) 6
  refine le_trans ?_ h
  rw [Finset.sum_range_succ, Finset.sum_range_succ, Finset.sum_range_succ,
    Finset.sum_range_succ, Finset.sum_range_succ, Finset.sum_range_succ,
    Finset.sum_range_zero]
  norm_num [Nat.factorial]

theorem log_ten_ninths_gt : (0.10536 : ℝ) < Real.log (10 / 9) := by
  rw [Real.lt_log_iff_exp_lt (by norm_num)]
  exact lt_of_le_of_lt exp_10536_ub (by norm_num)

theorem log_ten_ninths_lt : Real.log (10 / 9) < 0.105361 := by
  rw [Real.log_lt_iff_lt_exp (by norm_num)]
  exact lt_of_lt_of_le (by norm_num) exp_105361_lb

theorem exp_0453625_ub : Real.exp 0.0453625 ≤ 1.0464073 := by
  have h := Real.exp_bound' (x := (0.0453625 : ℝ)) (by norm_num) (by norm_num) (n := 5)
    (by norm_num)
  refine h.trans ?_
  rw [Finset.sum_range_succ, Finset.sum_range_succ, Finset.sum_range_succ,
    Finset.sum_range_succ, Finset.sum_range_succ, Finset.sum_range_zero]
  norm_num [Nat.factorial]

theorem exp_04533_lb : (1.0463728 : ℝ) ≤ Real.exp 0.04533 := by
  have h := Real.sum_le_exp_of_nonneg (x := (0.04533 : ℝ)) (by norm_num) 5
  refine le_trans ?_ h
  rw [Finset.sum_range_succ, Finset.sum_range_succ, Finset.sum_range_succ,
    Finset.sum_range_succ, Finset.sum_range_succ, Finset.sum_range_zero]
  norm_num [Nat.factorial]

theorem exp_9546375_lb : (2.59771 : ℝ) < Real.exp 0.9546375 := by
  have hmul : Real.exp 0.9546375 * Real.exp 0.0453625 = Real.exp 1 := by
    rw [← Real.exp_add]
    norm_num
  have h1 : (2.7182818283 : ℝ) < Real.exp 1 := Real.exp_one_gt_d9
  have h2 : Real.exp 0.0453625 ≤ 1.0464073 := exp_0453625_ub
  nlinarith [Real.exp_pos 0.9546375, Real.exp_pos 0.0453625]

theorem exp_95467_ub : Real.exp 0.95467 < 2.59782 := by
  have hmul : Real.exp 0.95467 * Real.exp 0.04533 = Real.exp 1 := by
    rw [← Real.exp_add]
    norm_num
  have h1 : Real.exp 1 < 2.7182818286 := Real.exp_one_lt_d9
  have h2 : (1.0463728 : ℝ) ≤ Real.exp 0.04533 := exp_04533_lb
  nlinarith [Real.exp_pos 0.95467, Real.exp_pos 0.04533]

theorem exp_273709_ub : Real.exp 0.273709 ≤ 1.314836 := by
  have h := Real.exp_bound' (x := (0.273709 : ℝ)) (by norm_num) (by norm_num) (n := 6)
    (by norm_num)
  refine h.trans ?_
  rw [Finset.sum_range_succ, Finset.sum_range_succ, Finset.sum_range_succ,
    Finset.sum_range_succ, Finset.sum_range_succ, Finset.sum_range_succ,
    Finset.sum_range_zero]
  norm_num [Nat.factorial]

theorem exp_273694_lb : (1.3147 : ℝ) ≤ Real.exp 0.273694 := by
  have h := Real.sum_le_exp_of_nonneg (x := (0.273694 : ℝ)) (by norm_num) 5
  refine le_trans ?_ h
  rw [Finset.sum_range_succ, Finset.sum_range_succ, Finset.sum_range_succ,
    Finset.sum_range_succ, Finset.sum_range_succ, Finset.sum_range_zero]
  norm_num [Nat.factorial]

theorem round1_239 {x : ℝ} (h1 : 23.85 < x) (h2 : x < 23.95) : round1 x = 23.9 := by
  unfold round1
  have hf : round (x * 10) = 239 := by
    rw [round_eq, Int.floor_eq_iff]
    constructor
    · push_cast
      linarith
    · push_cast
      linarith
  rw [hf]
  norm_num

/-- Claim C2: the adjusted LDL is the baseline multiplied by the selected
statin's factor (1 - reduction/100), then by ezetimibe's factor 1 - 20/100
when selected (multiplicative composition), then clamped to a minimum of
1.0 mmol/L; the result is never below 1.0, and baseline 1.0 yields
exactly 1.0 whatever reductions are applied. -/
theorem C2_adj_ldl_multiplicative_floor (b : ℝ) (statin : String) (ez : Bool)
    (hs : statin = "None" ∨ statin = "Atorvastatin 80 mg" ∨ statin = "Rosuvastatin 20 mg") :
    adj_ldl b statin ez
      = max (b * (if statin = "None" then 1 else 1 - ldl_therapies statin / 100)
          * (if ez then 1 - 20 / 100 else 1)) 1
    ∧ 1 ≤ adj_ldl b statin ez
    ∧ adj_ldl 1 statin ez = 1 := by
  rcases hs with hs | hs | hs <;> subst hs <;> cases ez <;>
    simp [adj_ldl, ldl_therapies] <;> norm_num

/-- Witness for C2 at baseline 3.5, Rosuvastatin 20 mg, ezetimibe on. -/
theorem C2_adj_ldl_multiplicative_floor_witness :
    1 ≤ adj_ldl 3.5 "Rosuvastatin 20 mg" true ∧ adj_ldl 1 "Rosuvastatin 20 mg" true = 1 := by
  have h := C2_adj_ldl_multiplicative_floor 3.5 "Rosuvastatin 20 mg" true (Or.inr (Or.inr rfl))
  exact ⟨h.2.1, h.2.2⟩

/-- Claim C3: the post-intervention risk subtracts the flat amount 10 from
the (capped) baseline instead of summing the selected interventions' ARR
constants, so two runs that differ only in the selected interventions report
the same final risk, ARR and RRR. -/
theorem C3_flat_subtraction_ignores_interventions (b : ℝ)
    (ivs ivs2 : InterventionSelection) :
    final b ivs = min b 85 - 10
    ∧ final b ivs = final b ivs2
    ∧ arr b ivs = arr b ivs2
    ∧ rrr b ivs = rrr b ivs2 :=
  ⟨rfl, rfl, rfl, rfl⟩

/-- Claim C4: the reported relative risk reduction is
round(min(arr / baseline_c * 100, 75), 1) and hence never exceeds 75. -/
theorem C4_rrr_capped_at_75 (b : ℝ) (ivs : InterventionSelection)
    (hb : baseline_c b ≠ 0) :
    rrr b ivs = round1 (min (arr b ivs / baseline_c b * 100) 75)
    ∧ rrr b ivs ≤ 75 := by
  refine ⟨rfl, ?_⟩
  have h : min (arr b ivs / baseline_c b * 100) 75 ≤ ((75 : ℤ) : ℝ) := by
    exact_mod_cast min_le_right _ _
  have := round1_le_int 75 h
  unfold rrr
  exact_mod_cast this

/-- Witness for C4 at baseline 20 with no interventions selected. -/
theorem C4_rrr_capped_at_75_witness :
    baseline_c 20 ≠ 0
    ∧ rrr 20 ⟨false, false, false, false, false, false, false, false, false⟩ ≤ 75 := by
  have hb : baseline_c 20 ≠ 0 := by
    unfold baseline_c
    rw [min_eq_left (by norm_num)]
    norm_num
  exact ⟨hb, (C4_rrr_capped_at_75 20 ⟨false, false, false, false, false, false, false, false,
    false⟩ hb).2⟩

/-- Claim C10: the baseline 10-year risk is capped at 85 before the results
are formed: when the estimate exceeds 85, the reported baseline is 85 and
final, ARR and RRR agree with those of a baseline of exactly 85. -/
theorem C10_baseline_capped_at_85 (b : ℝ) (ivs : InterventionSelection) (hb : 85 < b) :
    baseline_c b = 85
    ∧ final b ivs = final 85 ivs
    ∧ arr b ivs = arr 85 ivs
    ∧ rrr b ivs = rrr 85 ivs := by
  have h : baseline_c b = 85 := by
    unfold baseline_c
    exact min_eq_right hb.le
  have h85 : baseline_c (85 : ℝ) = 85 := by
    unfold baseline_c
    exact min_self 85
  refine ⟨h, ?_, ?_, ?_⟩ <;> simp only [final, arr, rrr, h, h85]

/-- Witness for C10 at baseline 90. -/
theorem C10_baseline_capped_at_85_witness :
    (85 : ℝ) < 90
    ∧ baseline_c 90 = 85 := by
  exact ⟨by norm_num, (C10_baseline_capped_at_85 90
    ⟨false, false, false, false, false, false, false, false, false⟩ (by norm_num)).1⟩

/-- Claim C1: estimate_smart_risk computes round1 of
(1 - 0.900 ^ exp(lp - 5.8)) * 100 where lp is the stated linear predictor
with the eGFR term written -0.02 * egfr (equal to the source's
-0.2 * (egfr / 10)), and the result always lies in [0, 100]. -/
theorem C1_estimate_formula_and_range (age : ℝ) (sex : String) (sbp tc hdl : ℝ)
    (smoke dm : Bool) (egfr crp vasc : ℝ) (hcrp : -1 < crp) :
    estimate_smart_risk age sex sbp tc hdl smoke dm egfr crp vasc
      = round1 ((1 - (0.900 : ℝ) ^ Real.exp
          ((0.064 * age + 0.34 * (if sex = "Male" then (1 : ℝ) else 0) + 0.02 * sbp
            + 0.25 * tc - 0.25 * hdl + 0.44 * (if smoke then (1 : ℝ) else 0)
            + 0.51 * (if dm then (1 : ℝ) else 0) - 0.02 * egfr
            + 0.25 * Real.log (crp + 1) + 0.4 * vasc) - 5.8)) * 100)
    ∧ 0 ≤ estimate_smart_risk age sex sbp tc hdl smoke dm egfr crp vasc
    ∧ estimate_smart_risk age sex sbp tc hdl smoke dm egfr crp vasc ≤ 100 := by
  have hlp : smartLp age sex sbp tc hdl smoke dm egfr crp vasc
      = 0.064 * age + 0.34 * (if sex = "Male" then (1 : ℝ) else 0) + 0.02 * sbp
        + 0.25 * tc - 0.25 * hdl + 0.44 * (if smoke then (1 : ℝ) else 0)
        + 0.51 * (if dm then (1 : ℝ) else 0) - 0.02 * egfr
        + 0.25 * Real.log (crp + 1) + 0.4 * vasc := by
    unfold smartLp
    ring
  have hr0 : 0 < (0.900 : ℝ) ^ Real.exp (smartLp age sex sbp tc hdl smoke dm egfr crp vasc - 5.8) :=
    Real.rpow_pos_of_pos (by norm_num) _
  have hr1 : (0.900 : ℝ) ^ Real.exp (smartLp age sex sbp tc hdl smoke dm egfr crp vasc - 5.8) < 1 :=
    Real.rpow_lt_one (by norm_num) (by norm_num) (Real.exp_pos _)
  refine ⟨?_, ?_, ?_⟩
  · unfold estimate_smart_risk
    rw [hlp]
  · unfold estimate_smart_risk
    apply round1_nonneg
    nlinarith
  · unfold estimate_smart_risk
    have h := round1_le_int (x := (1 - (0.900 : ℝ)
      ^ Real.exp (smartLp age sex sbp tc hdl smoke dm egfr crp vasc - 5.8)) * 100) 100
      (by push_cast; nlinarith)
    exact_mod_cast h

/-- Witness for C1 at the example profile of the spec. -/
theorem C1_estimate_formula_and_range_witness :
    (-1 : ℝ) < 2
    ∧ 0 ≤ estimate_smart_risk 60 "Male" 145 5 1 false false 80 2 0
    ∧ estimate_smart_risk 60 "Male" 145 5 1 false false 80 2 0 ≤ 100 := by
  have h := C1_estimate_formula_and_range 60 "Male" 145 5 1 false false 80 2 0 (by norm_num)
  exact ⟨by norm_num, h.2.1, h.2.2⟩

/-- Claim C5: the checked estimator fails with InvalidInput exactly when
crp ≤ -1 (the logarithm's domain error), returns a valid result for
crp > -1, and admits no other failure kind. -/
theorem C5_invalid_input_discipline (age : ℝ) (sex : String) (sbp tc hdl : ℝ)
    (smoke dm : Bool) (egfr crp vasc : ℝ) :
    estimate_smart_risk_checked age sex sbp tc hdl smoke dm egfr crp vasc
      = (if crp ≤ -1 then Except.error RiskError.invalidInput
         else Except.ok (estimate_smart_risk age sex sbp tc hdl smoke dm egfr crp vasc))
    ∧ (estimate_smart_risk_checked age sex sbp tc hdl smoke dm egfr crp vasc
        = Except.error RiskError.invalidInput
      ∨ ∃ v, estimate_smart_risk_checked age sex sbp tc hdl smoke dm egfr crp vasc
        = Except.ok v) := by
  unfold estimate_smart_risk_checked
  by_cases h : crp + 1 ≤ 0
  · rw [if_pos h, if_pos (by linarith)]
    exact ⟨rfl, Or.inl rfl⟩
  · rw [if_neg h, if_neg (by intro hc; exact h (by linarith))]
    exact ⟨rfl, Or.inr ⟨_, rfl⟩⟩

/-- Claim C7: convert_5yr is monotone on [0, 100]. -/
theorem C7_convert_5yr_monotone (a b : ℝ) (h0 : 0 ≤ b) (hba : b < a) (h100 : a ≤ 100) :
    convert_5yr b ≤ convert_5yr a := by
  unfold convert_5yr
  apply round1_mono
  have hpa : (0 : ℝ) ≤ 1 - a / 100 := by linarith
  have hle : 1 - a / 100 ≤ 1 - b / 100 := by linarith
  have h := Real.rpow_le_rpow hpa hle (by norm_num : (0 : ℝ) ≤ 0.5)
  linarith

/-- Witness for C7 at the pair 10 < 20. -/
theorem C7_convert_5yr_monotone_witness :
    (0 : ℝ) ≤ 10 ∧ (10 : ℝ) < 20 ∧ (20 : ℝ) ≤ 100 ∧ convert_5yr 10 ≤ convert_5yr 20 :=
  ⟨by norm_num, by norm_num, by norm_num,
    C7_convert_5yr_monotone 20 10 (by norm_num) (by norm_num) (by norm_num)⟩

/-- Claim C8: each add-on is selectable only when its eligibility predicate
holds: with adjusted LDL at most 1.8 the PCSK9i and inclisiran checkboxes are
not offered, with TG at most 1.7 icosapent ethyl stays false, a non-smoker
cannot select smoking cessation, BMI below 30 disables semaglutide; and the
spec's example 3.5 mmol/L with a 55 percent statin plus ezetimibe adjusts to
1.26 mmol/L, which does not pass the 1.8 gate. -/
theorem C8_eligibility_gating (adjv tg bmi : ℝ) (wp wi wo ws wsem : Bool)
    (hl : adjv ≤ 1.8) (ht : tg ≤ 1.7) (hb : bmi < 30) :
    pcsk9_sel adjv wp = none
    ∧ incl_sel adjv wi = none
    ∧ ico_iv_sel tg wo = false
    ∧ smoke_iv_sel false ws = false
    ∧ sem_iv_sel bmi wsem = false
    ∧ adj_ldl 3.5 "Rosuvastatin 20 mg" true = 1.26
    ∧ pcsk9_sel (adj_ldl 3.5 "Rosuvastatin 20 mg" true) wp = none
    ∧ incl_sel (adj_ldl 3.5 "Rosuvastatin 20 mg" true) wi = none := by
  have hadj : adj_ldl 3.5 "Rosuvastatin 20 mg" true = 1.26 := by
    simp [adj_ldl, ldl_therapies]
    rw [max_eq_left (by norm_num)]
    norm_num
  refine ⟨?_, ?_, ?_, rfl, ?_, hadj, ?_, ?_⟩
  · exact if_neg (not_lt.mpr hl)
  · exact if_neg (not_lt.mpr hl)
  · exact if_neg (not_lt.mpr ht)
  · exact if_pos hb
  · rw [hadj]
    exact if_neg (by norm_num)
  · rw [hadj]
    exact if_neg (by norm_num)

/-- Witness for C8 at adjusted LDL 1.26, TG 1.2, BMI 25. -/
theorem C8_eligibility_gating_witness :
    pcsk9_sel 1.26 true = none ∧ adj_ldl 3.5 "Rosuvastatin 20 mg" true = 1.26 := by
  have h := C8_eligibility_gating 1.26 1.2 25 true true true true true
    (by norm_num) (by norm_num) (by norm_num)
  exact ⟨h.1, h.2.2.2.2.2.1⟩

/-- Claim C9: whenever the adjusted LDL is at most 1.8 mmol/L the names
pcsk9 and incl are never assigned, so the results-details row that reads
both fails (NameError) instead of producing its Add-Tx cell. -/
theorem C9_results_row_name_error (b : ℝ) (statin : String) (ez : Bool) (wp wi : Bool)
    (h : adj_ldl b statin ez ≤ 1.8) :
    add_tx_row (pcsk9_sel (adj_ldl b statin ez) wp)
      (incl_sel (adj_ldl b statin ez) wi) = none := by
  unfold pcsk9_sel incl_sel
  rw [if_neg (not_lt.mpr h), if_neg (not_lt.mpr h)]
  rfl

/-- Witness for C9 at baseline 3.5 with Rosuvastatin 20 mg and ezetimibe. -/
theorem C9_results_row_name_error_witness :
    adj_ldl 3.5 "Rosuvastatin 20 mg" true ≤ 1.8
    ∧ add_tx_row (pcsk9_sel (adj_ldl 3.5 "Rosuvastatin 20 mg" true) true)
        (incl_sel (adj_ldl 3.5 "Rosuvastatin 20 mg" true) false) = none := by
  have hadj : adj_ldl 3.5 "Rosuvastatin 20 mg" true ≤ 1.8 := by
    simp [adj_ldl, ldl_therapies]
    norm_num
  exact ⟨hadj, C9_results_row_name_error 3.5 "Rosuvastatin 20 mg" true true false hadj⟩

/-- Claim C6 counterexample: at the example profile (age 60, male, SBP 145,
TC 5, HDL 1, non-smoker, no diabetes, eGFR 80, CRP 2, no vascular disease)
the linear predictor differs from the claimed 6.764 by more than 0.005, so
it is not 6.764 to the stated precision: it is 6.48 + 0.25 ln 3, about
6.755. -/
theorem C6_lp_differs_from_6764 :
    0.005 < |smartLp 60 "Male" 145 5 1 false false 80 2 0 - 6.764| := by
  have hlp : smartLp 60 "Male" 145 5 1 false false 80 2 0 = 6.48 + 0.25 * Real.log 3 := by
    simp [smartLp]
    norm_num
  have hub : smartLp 60 "Male" 145 5 1 false false 80 2 0 < 6.759 := by
    rw [hlp]
    have := log_three_lt
    linarith
  calc (0.005 : ℝ) < 6.764 - smartLp 60 "Male" 145 5 1 false false 80 2 0 := by linarith
    _ ≤ |6.764 - smartLp 60 "Male" 145 5 1 false false 80 2 0| := le_abs_self _
    _ = |smartLp 60 "Male" 145 5 1 false false 80 2 0 - 6.764| := abs_sub_comm _ _

/-- Claim C6 (amended): at the example profile the linear predictor equals
6.48 + 0.25 ln 3, which lies strictly between 6.75 and 6.76 (about 6.755,
not 6.764), the returned ten-year risk is round1 of
(1 - 0.900 ^ exp(lp - 5.8)) * 100 for that lp, and that regression value
is exactly 23.9. -/
theorem C6_example_profile_amended :
    smartLp 60 "Male" 145 5 1 false false 80 2 0 = 6.48 + 0.25 * Real.log 3
    ∧ 6.75 < smartLp 60 "Male" 145 5 1 false false 80 2 0
    ∧ smartLp 60 "Male" 145 5 1 false false 80 2 0 < 6.76
    ∧ estimate_smart_risk 60 "Male" 145 5 1 false false 80 2 0
      = round1 ((1 - (0.900 : ℝ)
          ^ Real.exp (smartLp 60 "Male" 145 5 1 false false 80 2 0 - 5.8)) * 100)
    ∧ estimate_smart_risk 60 "Male" 145 5 1 false false 80 2 0 = 23.9 := by
  have hlp : smartLp 60 "Male" 145 5 1 false false 80 2 0 = 6.48 + 0.25 * Real.log 3 := by
    simp [smartLp]
    norm_num
  have ht1 : (0.9546375 : ℝ) < smartLp 60 "Male" 145 5 1 false false 80 2 0 - 5.8 := by
    rw [hlp]
    have := log_three_gt_d5
    linarith
  have ht2 : smartLp 60 "Male" 145 5 1 false false 80 2 0 - 5.8 < 0.95467 := by
    rw [hlp]
    have := log_three_lt_d5
    linarith
  have hy1 : (2.59771 : ℝ)
      < Real.exp (smartLp 60 "Male" 145 5 1 false false 80 2 0 - 5.8) :=
    lt_of_lt_of_le exp_9546375_lb (Real.exp_le_exp.mpr ht1.le)
  have hy2 : Real.exp (smartLp 60 "Male" 145 5 1 false false 80 2 0 - 5.8) < 2.59782 :=
    lt_of_le_of_lt (Real.exp_le_exp.mpr ht2.le) exp_95467_ub
  have h09 : (0.900 : ℝ) ^ Real.exp (smartLp 60 "Male" 145 5 1 false false 80 2 0 - 5.8)
      = (Real.exp (Real.log (10 / 9)
          * Real.exp (smartLp 60 "Male" 145 5 1 false false 80 2 0 - 5.8)))⁻¹ := by
    rw [Real.rpow_def_of_pos (by norm_num),
      show Real.log 0.900 = -Real.log (10 / 9) by
        rw [show (0.900 : ℝ) = ((10 : ℝ) / 9)⁻¹ by norm_num, Real.log_inv],
      neg_mul, Real.exp_neg]
  have hl1 : (0.10536 : ℝ) < Real.log (10 / 9) := log_ten_ninths_gt
  have hl2 : Real.log (10 / 9) < 0.105361 := log_ten_ninths_lt
  have hE1 : (0.273694 : ℝ) < Real.log (10 / 9)
      * Real.exp (smartLp 60 "Male" 145 5 1 false false 80 2 0 - 5.8) := by
    nlinarith
  have hE2 : Real.log (10 / 9)
      * Real.exp (smartLp 60 "Male" 145 5 1 false false 80 2 0 - 5.8) < 0.273709 := by
    nlinarith
  have hexp1 : Real.exp (Real.log (10 / 9)
      * Real.exp (smartLp 60 "Male" 145 5 1 false false 80 2 0 - 5.8)) < 2000 / 1521 :=
    calc Real.exp (Real.log (10 / 9)
        * Real.exp (smartLp 60 "Male" 145 5 1 false false 80 2 0 - 5.8))
        ≤ Real.exp 0.273709 := Real.exp_le_exp.mpr hE2.le
      _ ≤ 1.314836 := exp_273709_ub
      _ < 2000 / 1521 := by norm_num
  have hexp2 : (2000 : ℝ) / 1523 < Real.exp (Real.log (10 / 9)
      * Real.exp (smartLp 60 "Male" 145 5 1 false false 80 2 0 - 5.8)) :=
    calc (2000 : ℝ) / 1523 < 1.3147 := by norm_num
      _ ≤ Real.exp 0.273694 := exp_273694_lb
      _ ≤ Real.exp (Real.log (10 / 9)
          * Real.exp (smartLp 60 "Male" 145 5 1 false false 80 2 0 - 5.8)) :=
        Real.exp_le_exp.mpr hE1.le
  have hq1 : (1521 : ℝ) / 2000 < (Real.exp (Real.log (10 / 9)
      * Real.exp (smartLp 60 "Male" 145 5 1 false false 80 2 0 - 5.8)))⁻¹ := by
    have h := inv_strictAnti₀ (Real.exp_pos _) hexp1
    rwa [show ((2000 : ℝ) / 1521)⁻¹ = 1521 / 2000 by norm_num] at h
  have hq2 : (Real.exp (Real.log (10 / 9)
      * Real.exp (smartLp 60 "Male" 145 5 1 false false 80 2 0 - 5.8)))⁻¹
      < (1523 : ℝ) / 2000 := by
    have h := inv_strictAnti₀ (by positivity : (0 : ℝ) < 2000 / 1523) hexp2
    rwa [show ((2000 : ℝ) / 1523)⁻¹ = 1523 / 2000 by norm_num] at h
  refine ⟨hlp, ?_, ?_, rfl, ?_⟩
  · rw [hlp]
    have := log_three_gt
    linarith
  · rw [hlp]
    have := log_three_lt
    linarith
  · unfold estimate_smart_risk
    rw [h09]
    apply round1_239
    · linarith
    · linarith

end CvdRiskApp
